import Mathlib

/-!
Shallow embedding of `src/txtytmp3app.py` (the `txtytmp3` terminal app):
a YouTube-audio downloader built on the textual UI framework and pytube.
Pure data and event-handler logic are translated into Lean functions;
external collaborators (pytube resolution, the filesystem, yaml) are
modelled as explicit parameters.  The theorems below settle the frozen
claims about the program.
-/

namespace Txtytmp3

/-- Model of textual's `ProgressBar` widget as used by the app: a `total`
and a current `progress`; `advance` adds a delta to `progress`.
Byte counts are modelled as `Int` (Python ints). -/
structure ProgressBar where
  total : Int
  progress : Int
deriving DecidableEq, Repr

@[ext] theorem ProgressBar.ext_iff_decl {a b : ProgressBar}
    (h1 : a.total = b.total) (h2 : a.progress = b.progress) : a = b := by
  cases a; cases b; simp_all

/-- `ProgressBar.advance(delta)`: add `delta` to the progress. -/
def ProgressBar.advance (pb : ProgressBar) (delta : Int) : ProgressBar :=
  { pb with progress := pb.progress + delta }

/-- The delta computed by `YT2MP3.download_progress` for a callback carrying
`remaining`: `advance = (dprog.total - event.remaining) - dprog.progress`. -/
def downloadDelta (pb : ProgressBar) (remaining : Int) : Int :=
  (pb.total - remaining) - pb.progress

/-- `YT2MP3.download_progress` (src/txtytmp3app.py:211-224): on a
`DownloadProgress(remaining)` event, compute the delta against the current
progress and advance the bar by it. -/
def download_progress (pb : ProgressBar) (remaining : Int) : ProgressBar :=
  pb.advance (downloadDelta pb remaining)

/-- Process a sequence of progress callbacks in order. -/
def processCallbacks (pb : ProgressBar) : List Int → ProgressBar
  | [] => pb
  | r :: rs => processCallbacks (download_progress pb r) rs

/-- The sequence of deltas the handler applies over a callback sequence. -/
def deltasOf (pb : ProgressBar) : List Int → List Int
  | [] => []
  | r :: rs => downloadDelta pb r :: deltasOf (download_progress pb r) rs

theorem download_progress_total (pb : ProgressBar) (r : Int) :
    (download_progress pb r).total = pb.total := rfl

theorem download_progress_progress (pb : ProgressBar) (r : Int) :
    (download_progress pb r).progress = pb.total - r := by
  simp [download_progress, downloadDelta, ProgressBar.advance]

theorem processCallbacks_total (rs : List Int) (pb : ProgressBar) :
    (processCallbacks pb rs).total = pb.total := by
  induction rs generalizing pb with
  | nil => rfl
  | cons r rs ih => simp [processCallbacks, ih, download_progress_total]

theorem deltasOf_sum (rs : List Int) (pb : ProgressBar) :
    (deltasOf pb rs).sum = (processCallbacks pb rs).progress - pb.progress := by
  induction rs generalizing pb with
  | nil => simp [deltasOf, processCallbacks]
  | cons r rs ih =>
      simp only [deltasOf, processCallbacks, List.sum_cons, ih]
      have h := download_progress_progress pb r
      simp [downloadDelta, h]

theorem processCallbacks_last (rs : List Int) (pb : ProgressBar) (rlast : Int)
    (h : rs.getLast? = some rlast) :
    (processCallbacks pb rs).progress = pb.total - rlast := by
  induction rs generalizing pb with
  | nil => simp at h
  | cons r rs ih =>
      cases rs with
      | nil =>
          simp [List.getLast?] at h
          subst h
          simp [processCallbacks, download_progress_progress]
      | cons r2 rs2 =>
          have h2 : (r2 :: rs2).getLast? = some rlast := by
            simpa [List.getLast?_cons_cons] using h
          have h3 := ih (download_progress pb r) h2
          simp only [processCallbacks] at h3 ⊢
          rw [h3, download_progress_total]

theorem deltasOf_nonneg (rs : List Int) (pb : ProgressBar)
    (hchain : List.Chain' (fun a b => b ≤ a) rs)
    (hhead : ∀ hd, rs.head? = some hd → hd ≤ pb.total - pb.progress) :
    ∀ d ∈ deltasOf pb rs, 0 ≤ d := by
  induction rs generalizing pb with
  | nil => simp [deltasOf]
  | cons r rs ih =>
      intro d hd
      simp only [deltasOf, List.mem_cons] at hd
      rcases hd with hd | hd
      · have := hhead r (by simp)
        subst hd
        simp only [downloadDelta]
        omega
      · refine ih (download_progress pb r) hchain.tail ?_ d hd
        intro hd2 hhd2
        have hle : hd2 ≤ r := by
          cases rs with
          | nil => simp at hhd2
          | cons r2 rs2 =>
              simp at hhd2
              have := (List.chain'_cons.mp hchain).1
              omega
        rw [download_progress_total, download_progress_progress]
        omega

/-- Model of a pytube audio `Stream` as the app uses it: whether it is an
audio-only stream, its `filesize` in bytes, and its string rendering
(`str(t)`) used as the option label in the stream selector. -/
structure StreamVariant where
  onlyAudio : Bool
  filesize : Int
  repr : String
deriving DecidableEq, Repr

/-- Model of a resolved pytube `YouTube` object: the display fields the app
reads plus its list of streams (in resolution order). -/
structure VideoRef where
  title : String
  author : String
  length : Int
  streams : List StreamVariant
deriving DecidableEq, Repr

/-- State of the `Donwload` button (src/txtytmp3app.py:27-56): the selected
stream, the destination directory and the button label. -/
structure Donwload where
  stream : Option StreamVariant
  location : Option String
  label : String
deriving DecidableEq, Repr

/-- Observable outcome of one press of the `Donwload` button: the final
widget state, the sequence of labels assigned during the handler, and the
transfers performed (stream and destination of each `stream.download`). -/
structure PressResult where
  state : Donwload
  labelTrace : List String
  downloads : List (StreamVariant × Option String)
deriving DecidableEq, Repr

/-- `Donwload.on_button_pressed` (src/txtytmp3app.py:44-56): if a stream is
set, set the label to "Downloading...", run `stream.download(...)`, then set
the label to "Done"; otherwise set the label to "Error. Click to retry" and
perform no transfer. -/
def Donwload.on_button_pressed (d : Donwload) : PressResult :=
  match d.stream with
  | some s =>
      { state := { d with label := "Done" },
        labelTrace := ["Downloading...", "Done"],
        downloads := [(s, d.location)] }
  | none =>
      { state := { d with label := "Error. Click to retry" },
        labelTrace := ["Error. Click to retry"],
        downloads := [] }

/-- State of the `DonwloadLocation` widget (src/txtytmp3app.py:78-146):
the default location, the currently highlighted path, the text of the
`#s_exp_hide` static, the visibility of the directory tree, and the
location banner text. -/
structure DonwloadLocation where
  default_loc : String
  selected_path : String
  s_exp_hide : String
  dirtreeVisible : Bool
  locationBanner : String
deriving DecidableEq, Repr

/-- `DonwloadLocation.toggle_exp_hide` (src/txtytmp3app.py:127-135): on a
switch change, update the static text and the tree visibility. -/
def toggle_exp_hide (d : DonwloadLocation) (value : Bool) : DonwloadLocation :=
  if value then { d with s_exp_hide := "Hide: ", dirtreeVisible := true }
  else { d with s_exp_hide := "Explore: ", dirtreeVisible := false }

/-- A yaml mapping document modelled as a partial map from string keys to
string values (Python dict semantics). -/
abbrev Cfg := String → Option String

def emptyCfg : Cfg := fun _ => none

/-- Python `d[k] = v` on a dict. -/
def Cfg.set (c : Cfg) (k v : String) : Cfg :=
  fun q => if q = k then some v else c q

/-- Python `d.update(c)`: keys of `c` override keys of `d`. -/
def Cfg.update (d c : Cfg) : Cfg :=
  fun q => match c q with | some v => some v | none => d q

/-- `DonwloadLocation.write_default_loc` (src/txtytmp3app.py:114-121): read
the config file when it exists (a missing file yields the empty mapping),
set `download_loc` to the new path, and write the result back. The file
content is modelled as `Option Cfg` (`none` = file missing); paths are
strings and `Path.as_posix` is the identity on them. -/
def write_default_loc (file : Option Cfg) (new_path : String) : Cfg :=
  (file.getD emptyCfg).set "download_loc" new_path

/-- `YT2MP3.parse_config` (src/txtytmp3app.py:157-163): start from the
default mapping with `download_loc` bound to the home directory, and update
it with the file content when the file exists. -/
def parse_config (home : String) (file : Option Cfg) : Cfg :=
  Cfg.update (emptyCfg.set "download_loc" home) (file.getD emptyCfg)

/-- The UI state of the `YT2MP3` app that the handlers under study touch:
the resolved video, the results markdown text, the stream selector's
options/value/visibility, the download button's visibility and state, and
the progress bar's visibility and state. -/
structure AppState where
  video : Option VideoRef
  resultsText : String
  tracksOptions : List (String × StreamVariant)
  tracksValue : Option StreamVariant
  tracksDisplay : Bool
  downloadDisplay : Bool
  dprogDisplay : Bool
  download : Donwload
  dprog : ProgressBar
deriving DecidableEq, Repr

/-- `YT2MP3.selected_stream` (src/txtytmp3app.py:202-209): on a
`StreamSelect.Selected` event, set the download button's stream, reset its
label to "Download", and reset the progress bar to the stream's filesize
with progress 0. -/
def selected_stream (st : AppState) (s : StreamVariant) : AppState :=
  { st with
      download := { st.download with stream := some s, label := "Download" },
      dprog := { total := s.filesize, progress := 0 } }

/-- `YT2MP3.make_word_markdown` (src/txtytmp3app.py:253-260). -/
def make_word_markdown (v : VideoRef) : String :=
  "\n- **Title**: " ++ v.title ++ "\n- **Channel**: " ++ v.author ++
    "\n- **Length**: " ++ toString v.length ++ "\n        "

/-- `YT2MP3.fill_audio_tracks` (src/txtytmp3app.py:245-251): filter the
video's streams to audio-only, set the selector options to their string
renderings, set the selector value to the first track and post a
`StreamSelect.Selected` event carrying it. Returns `none` when the filtered
list is empty (`tracks[0]` raises `IndexError`); otherwise the updated
state and the posted event's stream. -/
def fill_audio_tracks (st : AppState) (v : VideoRef) :
    Option (AppState × StreamVariant) :=
  match v.streams.filter (fun t => t.onlyAudio) with
  | [] => none
  | t :: ts =>
      some ({ st with
                tracksOptions := (t :: ts).map (fun s => (s.repr, s)),
                tracksValue := some t }, t)

/-- `YT2MP3.find_video` (src/txtytmp3app.py:227-243): resolve the URL
(`resolve` models the `YouTube` constructor, returning `none` on
`RegexMatchError`). On success, fill the audio tracks, reveal the download
button, stream selector and progress bar, and render the summary markdown.
On failure, clear the video, hide the download button and stream selector
(the progress bar's visibility is not touched) and blank the results.
Returns the new state and the list of `StreamSelect.Selected` events posted
during the handler; `none` models an uncaught `IndexError`. -/
def find_video (resolve : String → Option VideoRef) (st : AppState)
    (url : String) : Option (AppState × List StreamVariant) :=
  match resolve url with
  | some v =>
      match fill_audio_tracks { st with video := some v } v with
      | none => none
      | some (st1, posted) =>
          some ({ st1 with
                    downloadDisplay := true
                    tracksDisplay := true
                    dprogDisplay := true
                    resultsText := make_word_markdown v }, [posted])
  | none =>
      some ({ st with
                video := none
                resultsText := ""
                downloadDisplay := false
                tracksDisplay := false }, [])

/-- `YT2MP3.on_input_changed` (src/txtytmp3app.py:184-191): set the results
text to "Searching...", then run `find_video` when the value is non-empty
(Python truthiness), else blank the results text. -/
def on_input_changed (resolve : String → Option VideoRef) (st : AppState)
    (value : String) : Option (AppState × List StreamVariant) :=
  let st1 := { st with resultsText := "Searching..." }
  if value = "" then some ({ st1 with resultsText := "" }, [])
  else find_video resolve st1 value

/-- Deliver the posted `StreamSelect.Selected` events to their handler
`YT2MP3.selected_stream`, in order. -/
def deliver_selected (st : AppState) (evs : List StreamVariant) : AppState :=
  evs.foldl selected_stream st

/-- A lookup together with the delivery of the events it posted. -/
def lookup (resolve : String → Option VideoRef) (st : AppState)
    (url : String) : Option AppState :=
  (find_video resolve st url).map fun p => deliver_selected p.1 p.2

/-- The UI state the spec claims after an empty-URL or failed lookup:
no video, blank results, and stream selector, download button and progress
bar all hidden. -/
def clearedHidden (st : AppState) : Prop :=
  st.video = none ∧ st.resultsText = "" ∧ st.tracksDisplay = false ∧
    st.downloadDisplay = false ∧ st.dprogDisplay = false

instance (st : AppState) : Decidable (clearedHidden st) := by
  unfold clearedHidden; infer_instance

/-! Concrete states and collaborators used by witnesses and
counterexamples. -/

/-- An audio track with filesize 777. -/
def exTrack : StreamVariant := ⟨true, 777, "audio1"⟩

/-- A second audio track. -/
def exTrack2 : StreamVariant := ⟨true, 888, "audio2"⟩

/-- A non-audio track, filtered out by `fill_audio_tracks`. -/
def exVideoTrack : StreamVariant := ⟨false, 999, "video1"⟩

/-- A resolved video whose first audio-only stream is `exTrack`. -/
def exVideo : VideoRef := ⟨"T", "A", 10, [exVideoTrack, exTrack, exTrack2]⟩

/-- A resolver that succeeds on the URL "u" only. -/
def exResolve : String → Option VideoRef :=
  fun u => if u = "u" then some exVideo else none

/-- The startup state of the app: no video, blank results, selector and
progress bar hidden (as set in `on_mount`). -/
def exState0 : AppState :=
  { video := none, resultsText := "", tracksOptions := [],
    tracksValue := none, tracksDisplay := false, downloadDisplay := false,
    dprogDisplay := false, download := ⟨none, none, "Download"⟩,
    dprog := ⟨0, 0⟩ }

/-- A reachable state right after a successful lookup of `exVideo`: the
video is set and the selector, download button and progress bar are all
visible. -/
def exStateFull : AppState :=
  { video := some exVideo, resultsText := make_word_markdown exVideo,
    tracksOptions := [(exTrack.repr, exTrack), (exTrack2.repr, exTrack2)],
    tracksValue := some exTrack, tracksDisplay := true,
    downloadDisplay := true, dprogDisplay := true,
    download := ⟨some exTrack, some "/downloads", "Download"⟩,
    dprog := ⟨777, 0⟩ }

/-- The state `find_video` produces from `exStateFull` when resolution
fails: video cleared, results blanked, selector and download hidden, but
the progress bar still visible. -/
def exStateAfterFail : AppState :=
  { exStateFull with
      video := none, resultsText := "",
      downloadDisplay := false, tracksDisplay := false }

/-- An example config mapping holding one unrelated key. -/
def exCfg : Cfg := fun q => if q = "other" then some "v" else none

/-! The claims. -/

/-- C1: with the progress bar at `(total, 0)`, for every callback sequence
whose `remaining` values are non-increasing and bounded by `total`, every
delta computed by `YT2MP3.download_progress` is non-negative, and when the
final callback reports `remaining = 0` the applied deltas sum to `total`. -/
theorem C1_progress_deltas (pb : ProgressBar) (rs : List Int)
    (h0 : pb.progress = 0)
    (hle : ∀ r ∈ rs, r ≤ pb.total)
    (hchain : List.Chain' (fun a b => b ≤ a) rs) :
    (∀ d ∈ deltasOf pb rs, 0 ≤ d) ∧
      (rs.getLast? = some 0 → (deltasOf pb rs).sum = pb.total) := by
  constructor
  · refine deltasOf_nonneg rs pb hchain ?_
    intro hd hhd
    have hmem : hd ∈ rs := by
      cases rs with
      | nil => simp at hhd
      | cons a t =>
          simp at hhd
          subst hhd
          simp
    have := hle hd hmem
    omega
  · intro hlast
    rw [deltasOf_sum, processCallbacks_last rs pb 0 hlast, h0]
    ring

/-- Witness for C1 at `total = 100` and callbacks `[60, 30, 0]`. -/
theorem C1_progress_deltas_witness :
    ((ProgressBar.mk 100 0).progress = 0 ∧
      (∀ r ∈ [(60 : Int), 30, 0], r ≤ (ProgressBar.mk 100 0).total) ∧
      List.Chain' (fun a b : Int => b ≤ a) [60, 30, 0]) ∧
    ((∀ d ∈ deltasOf (ProgressBar.mk 100 0) [60, 30, 0], 0 ≤ d) ∧
      (([(60 : Int), 30, 0].getLast? = some 0) →
        (deltasOf (ProgressBar.mk 100 0) [60, 30, 0]).sum =
          (ProgressBar.mk 100 0).total)) :=
  ⟨⟨rfl, by decide, by norm_num [List.chain'_cons]⟩,
    C1_progress_deltas (ProgressBar.mk 100 0) [60, 30, 0] rfl (by decide)
      (by norm_num [List.chain'_cons])⟩

/-- C2: pressing the `Donwload` button with no stream set only changes the
label to "Error. Click to retry" and performs no transfer; with a stream
set it performs exactly that transfer and the label passes through
"Downloading..." and ends at "Done". -/
theorem C2_button_pressed (d : Donwload) :
    (d.stream = none →
      d.on_button_pressed.state.label = "Error. Click to retry" ∧
      d.on_button_pressed.downloads = []) ∧
    (∀ s, d.stream = some s →
      d.on_button_pressed.downloads = [(s, d.location)] ∧
      d.on_button_pressed.labelTrace = ["Downloading...", "Done"] ∧
      d.on_button_pressed.state.label = "Done") := by
  constructor
  · intro h
    simp [Donwload.on_button_pressed, h]
  · intro s h
    simp [Donwload.on_button_pressed, h]

/-- Witness for C2 with no stream selected. -/
theorem C2_button_pressed_witness :
    ((Donwload.mk none none "Download").on_button_pressed.state.label =
        "Error. Click to retry" ∧
      (Donwload.mk none none "Download").on_button_pressed.downloads = []) ∧
    ((Donwload.mk (some exTrack) (some "/downloads")
          "Download").on_button_pressed.downloads =
        [(exTrack, some "/downloads")] ∧
      (Donwload.mk (some exTrack) (some "/downloads")
          "Download").on_button_pressed.labelTrace =
        ["Downloading...", "Done"] ∧
      (Donwload.mk (some exTrack) (some "/downloads")
          "Download").on_button_pressed.state.label = "Done") :=
  ⟨(C2_button_pressed (Donwload.mk none none "Download")).1 rfl,
    (C2_button_pressed
        (Donwload.mk (some exTrack) (some "/downloads") "Download")).2
      exTrack rfl⟩

/-- C3 counterexample: from the reachable state right after a successful
lookup, the empty-URL input-changed event only blanks the results text;
the video stays set and the widgets stay visible, so the claimed
cleared-and-hidden state does not hold. -/
theorem C3_counterexample :
    on_input_changed exResolve exStateFull "" =
      some ({ exStateFull with resultsText := "" }, []) ∧
    ¬ clearedHidden { exStateFull with resultsText := "" } :=
  ⟨rfl, by decide⟩

/-- C3 (amended): the empty-URL input-changed event blanks the results text
and changes nothing else; in particular the video and the visibility of the
stream selector, download button and progress bar are left as they were, so
the cleared-and-hidden state holds afterwards exactly when the video was
already null and those widgets already hidden (as in the startup state). -/
theorem C3_empty_input (resolve : String → Option VideoRef) (st : AppState) :
    on_input_changed resolve st "" = some ({ st with resultsText := "" }, []) ∧
    (clearedHidden { st with resultsText := "" } ↔
      st.video = none ∧ st.tracksDisplay = false ∧
        st.downloadDisplay = false ∧ st.dprogDisplay = false) := by
  constructor
  · rfl
  · unfold clearedHidden
    simp

/-- C4 counterexample: from the reachable state right after a successful
lookup, a failing lookup on a non-empty URL leaves the progress bar
visible, so the resulting state is neither the claimed all-hidden state nor
equal to the state the empty-URL event produces from the same start. -/
theorem C4_counterexample :
    on_input_changed (fun _ => none) exStateFull "x" =
      some (exStateAfterFail, []) ∧
    exStateAfterFail.dprogDisplay = true ∧
    ¬ clearedHidden exStateAfterFail ∧
    on_input_changed (fun _ => none) exStateFull "" ≠
      some (exStateAfterFail, []) :=
  ⟨rfl, rfl, by decide, by decide⟩

/-- C4 (amended): for every non-empty URL whose resolution raises the
recognized parse error, the lookup clears the video, blanks the results
text and hides the stream selector and download button, leaving everything
else — in particular the progress bar's visibility — unchanged. -/
theorem C4_failed_lookup (resolve : String → Option VideoRef)
    (st : AppState) (url : String) (hne : ¬ url = "")
    (hfail : resolve url = none) :
    on_input_changed resolve st url =
      some ({ st with video := none, resultsText := "",
                      downloadDisplay := false, tracksDisplay := false },
        []) := by
  simp only [on_input_changed, if_neg hne, find_video, hfail]

/-- Witness for C4 (amended) at the startup state and an always-failing
resolver. -/
theorem C4_failed_lookup_witness :
    (¬ "x" = "" ∧ (fun _ : String => (none : Option VideoRef)) "x" = none) ∧
    on_input_changed (fun _ => none) exState0 "x" =
      some ({ exState0 with
                video := none, resultsText := "",
                downloadDisplay := false, tracksDisplay := false },
        []) :=
  ⟨⟨by decide, rfl⟩, C4_failed_lookup (fun _ => none) exState0 "x"
    (by decide) rfl⟩

/-- C5: the stream-selected handler always sets the progress bar to the
selected variant's filesize with progress 0, and the download button's
stream to that variant with label "Download", whatever the prior state. -/
theorem C5_selected_stream_resets (st : AppState) (s : StreamVariant) :
    (selected_stream st s).dprog.total = s.filesize ∧
    (selected_stream st s).dprog.progress = 0 ∧
    (selected_stream st s).download.stream = some s ∧
    (selected_stream st s).download.label = "Download" :=
  ⟨rfl, rfl, rfl, rfl⟩

/-- C6: when resolution succeeds and the audio-only filter yields a
non-empty track list, `find_video` posts exactly one selected event
carrying the first track, sets the selector value to it, and after the
event is delivered the progress bar's total is that track's filesize with
progress 0 and the download button holds that track. -/
theorem C6_auto_select (resolve : String → Option VideoRef) (st : AppState)
    (url : String) (v : VideoRef) (t : StreamVariant)
    (ts : List StreamVariant) (hres : resolve url = some v)
    (htracks : v.streams.filter (fun s => s.onlyAudio) = t :: ts) :
    ((find_video resolve st url).map fun p => (p.2, p.1.tracksValue)) =
      some ([t], some t) ∧
    ((lookup resolve st url).map fun st2 =>
        (st2.dprog.total, st2.dprog.progress, st2.download.stream)) =
      some (t.filesize, 0, some t) := by
  constructor
  · simp [find_video, hres, fill_audio_tracks, htracks]
  · simp [lookup, find_video, hres, fill_audio_tracks, htracks,
      deliver_selected, selected_stream]

/-- Witness for C6 at the startup state with `exResolve` and `exVideo`. -/
theorem C6_auto_select_witness :
    (exResolve "u" = some exVideo ∧
      exVideo.streams.filter (fun s => s.onlyAudio) = exTrack :: [exTrack2]) ∧
    (((find_video exResolve exState0 "u").map fun p =>
        (p.2, p.1.tracksValue)) = some ([exTrack], some exTrack) ∧
      ((lookup exResolve exState0 "u").map fun st2 =>
          (st2.dprog.total, st2.dprog.progress, st2.download.stream)) =
        some (exTrack.filesize, 0, some exTrack)) :=
  ⟨⟨rfl, rfl⟩, C6_auto_select exResolve exState0 "u" exVideo exTrack
    [exTrack2] rfl rfl⟩

/-- C7: after `write_default_loc` stores path `p` over any prior file
content, a subsequent `parse_config` returns `p` as the download location;
when the file is missing, `parse_config` falls back to the home
directory. -/
theorem C7_default_loc_roundtrip (home p : String) (file : Option Cfg) :
    parse_config home (some (write_default_loc file p)) "download_loc" =
      some p ∧
    parse_config home none "download_loc" = some home := by
  constructor
  · simp [parse_config, write_default_loc, Cfg.update, Cfg.set, emptyCfg]
  · simp [parse_config, Cfg.update, Cfg.set, emptyCfg]

/-- C8: `write_default_loc` over an existing config document is a
read-merge-write: every key other than `download_loc` keeps its prior
value, and `download_loc` becomes the new path. -/
theorem C8_write_preserves_other_keys (c : Cfg) (p k : String)
    (h : ¬ k = "download_loc") :
    write_default_loc (some c) p k = c k ∧
    write_default_loc (some c) p "download_loc" = some p := by
  constructor
  · simp [write_default_loc, Cfg.set, h]
  · simp [write_default_loc, Cfg.set]

/-- Witness for C8 at a config holding the unrelated key "other". -/
theorem C8_write_preserves_other_keys_witness :
    (¬ "other" = "download_loc") ∧
    (write_default_loc (some exCfg) "/newdefault" "other" = exCfg "other" ∧
      write_default_loc (some exCfg) "/newdefault" "download_loc" =
        some "/newdefault") :=
  ⟨by decide,
    C8_write_preserves_other_keys exCfg "/newdefault" "other" (by decide)⟩

/-- C9: toggling the directory-tree switch off hides the tree and toggling
it back on restores visibility, and neither toggle changes
`selected_path`. -/
theorem C9_toggle_preserves_path (d : DonwloadLocation) :
    (toggle_exp_hide d false).dirtreeVisible = false ∧
    (toggle_exp_hide d false).selected_path = d.selected_path ∧
    (toggle_exp_hide (toggle_exp_hide d false) true).dirtreeVisible = true ∧
    (toggle_exp_hide (toggle_exp_hide d false) true).selected_path =
      d.selected_path := by
  simp [toggle_exp_hide]

/-- C10: the progress handler is idempotent per reported value: a second
consecutive callback with the same `remaining` computes delta 0 and leaves
the progress bar unchanged. -/
theorem C10_progress_idempotent (pb : ProgressBar) (r : Int) :
    download_progress (download_progress pb r) r = download_progress pb r ∧
    downloadDelta (download_progress pb r) r = 0 := by
  constructor
  · apply ProgressBar.ext_iff_decl
    · rfl
    · rw [download_progress_progress, download_progress_progress,
        download_progress_total]
  · simp [downloadDelta, download_progress_progress, download_progress_total]

end Txtytmp3
